import Mathlib

/-!
Shallow embedding of `salt/states/rabbitmq_user.py` (the declarative
state-reconciliation module for RabbitMQ users) and proofs about the
spec's claims over it.

Modelling conventions:
* The execution-module dictionary `__salt__['rabbitmq.*']` is a record of
  backend operations (`Backend`); an operation that raises
  `CommandExecutionError` is modelled as `Except String` with the error
  message in the `error` case.
* `__opts__['test']` is the boolean parameter `test`.
* Every embedded function returns the list of backend calls it performed
  (in order) together with either the returned `ret` dictionary or a
  Python-level exception (`PyErr`) that escaped the function.  The source
  contains three such crash sites, embedded faithfully:
  - line 123: `'...'.foramt(name)` (typo for `format`) raises
    `AttributeError` before `rabbitmq.add_user` is called;
  - line 61: `_check_perms_changes` references the local `existing_perms`,
    which is never assigned when the `existing` argument is not `None`,
    raising `NameError` on the first loop-body iteration;
  - line 189: `ret['changes']['perms']['new']` is the string `''`
    (line 188), so `.update(...)` on it raises `AttributeError`.
  - line 78: `list_users()[name]` raises `KeyError` when the user is
    missing from the listing (only `CommandExecutionError` is caught).
* Python dicts used as maps (user permissions per vhost, the user listing)
  are association lists; `tags` may be `None` or a list (the `str` input
  form, normalised by `.split()` on line 76, is modelled as the already
  split list); `perms` is a list of dicts, each dict an association list
  of vhost to permission triple.
-/

namespace RabbitmqUser

/-- Salt state result values: Python `True` / `False` / `None`. -/
inductive RResult
  | succ
  | fail
  | pend
deriving DecidableEq

/-- A permission triple (configure, write, read). -/
abbrev Perm := String × String × String

/-- A mapping from vhost to permission triple (a Python dict as an
association list). -/
abbrev PermMap := List (String × Perm)

/-- One backend (execution module) call, with its arguments. -/
inductive BCall
  | user_exists (name : String)
  | add_user (name : String) (password : Option String)
  | change_password (name : String) (password : String)
  | clear_password (name : String)
  | list_users
  | set_user_tags (name : String) (tags : List String)
  | list_user_permissions (name : String)
  | set_permissions (vhost : String) (name : String) (c : String) (w : String) (r : String)
  | delete_user (name : String)
deriving DecidableEq

/-- A Python-level exception escaping the state function (anything other
than the caught `CommandExecutionError`). -/
inductive PyErr
  | attributeError (detail : String)
  | nameError (detail : String)
  | keyError (detail : String)
deriving DecidableEq

/-- The `ret['changes']` dictionary.  The source only ever stores the keys
`user`, `password`, `tags`, `perms` and `name`, each holding an
old/new pair; a missing key is `none`. -/
structure Changes where
  user : Option (String × String)
  password : Option (String × String)
  tags : Option (List String × List String)
  perms : Option (PermMap × List (String × Perm))
  name : Option (String × String)
deriving DecidableEq

/-- The empty `changes` dictionary. -/
def Changes.empty : Changes := ⟨.none, .none, .none, .none, .none⟩

/-- Python truthiness of `ret['changes']`: the dict is empty iff no key
was ever stored. -/
def emptyChanges (c : Changes) : Bool :=
  c.user.isNone && c.password.isNone && c.tags.isNone && c.perms.isNone && c.name.isNone

/-- The `ret` dictionary built by `present` / `absent`. -/
structure Ret where
  name : String
  result : RResult
  comment : String
  changes : Changes
deriving DecidableEq

/-- The backend capability set (`__salt__['rabbitmq.*']`).  `list_users`
returns the map from user name to that user's tag set. -/
structure Backend where
  user_exists : String → Except String Bool
  add_user : String → Option String → Except String Unit
  change_password : String → String → Except String Unit
  clear_password : String → Except String Unit
  list_users : Except String (List (String × List String))
  set_user_tags : String → List String → Except String Unit
  list_user_permissions : String → Except String PermMap
  set_permissions : String → String → String → String → String → Except String Unit
  delete_user : String → Except String Unit

instance {ε α : Type} [DecidableEq ε] [DecidableEq α] : DecidableEq (Except ε α) := fun x y =>
  match x, y with
  | .ok a, .ok b =>
    if h : a = b then .isTrue (by rw [h]) else .isFalse (by intro c; cases c; exact h rfl)
  | .ok _, .error _ => .isFalse (by intro h; cases h)
  | .error _, .ok _ => .isFalse (by intro h; cases h)
  | .error e, .error f =>
    if h : e = f then .isTrue (by rw [h]) else .isFalse (by intro c; cases c; exact h rfl)

/-- Python dict lookup on an association list. -/
def lookupA {α : Type} (m : List (String × α)) (k : String) : Option α :=
  (m.find? (fun p => p.1 == k)).map (fun p => p.2)

/-- Python truthiness of the `tags` argument (`None` and `[]` are falsy). -/
def tagsTruthy : Option (List String) → Bool
  | .none => false
  | some l => !l.isEmpty

/-- Embedding of `_check_tags_changes` (lines 70 to 84): if the desired
tags are truthy, list all users, look up this user's current tag set and
return current minus desired; a `CommandExecutionError` from the listing
is caught and turned into `[]`; a user missing from the listing raises
`KeyError`. -/
def check_tags_changes (b : Backend) (name : String) (new_tags : Option (List String)) :
    List BCall × Except PyErr (List String) :=
  match new_tags with
  | .none => ([], .ok [])
  | some ts =>
    if ts.isEmpty then ([], .ok [])
    else
      ([.list_users],
        match b.list_users with
        | .error _ => .ok []
        | .ok users =>
          match lookupA users name with
          | .none => .error (.keyError name)
          | some observed => .ok (observed.filter (fun t => !ts.contains t)))

/-- The loop body of `_check_perms_changes` (lines 59 to 65), given a
bound `existing_perms`: some desired entry is missing from the existing
map or maps to a different triple. -/
def perms_loop (existing_perms : PermMap) (newperms : List (List (String × Perm))) : Bool :=
  newperms.any (fun d => d.any (fun vp =>
    match lookupA existing_perms vp.1 with
    | some triple => decide (¬ vp.2 = triple)
    | .none => true))

/-- Embedding of `_check_perms_changes` (lines 44 to 67).  When
`existing` is not `None` the local `existing_perms` is never assigned
(the source has no `else` branch), so the first executed loop-body
reference to it (line 61) raises `NameError`; if every desired dict is
empty the loop body never runs and the function returns `False`. -/
def check_perms_changes (b : Backend) (name : String) (newperms : List (List (String × Perm)))
    (existing : Option PermMap) : List BCall × Except PyErr Bool :=
  if newperms.isEmpty then ([], .ok false)
  else
    match existing with
    | .none =>
      ([.list_user_permissions name],
        match b.list_user_permissions name with
        | .error _ => .ok false
        | .ok existing_perms => .ok (perms_loop existing_perms newperms))
    | some _ =>
      if newperms.any (fun d => !d.isEmpty) then
        ([], .error (.nameError "existing_perms"))
      else
        ([], .ok false)

/-- Lines 191 to 202 of `present`: set `result` to `True`; if no changes
were recorded report the already-in-desired-state comment; otherwise in
test mode report a pending change with result `None`, else report
configured. -/
def present_finalize (test : Bool) (name : String) (ret : Ret) : Ret :=
  let ret1 := { ret with result := RResult.succ }
  if emptyChanges ret1.changes then
    { ret1 with comment := "'" ++ name ++ "' is already in the desired state." }
  else if test then
    { ret1 with result := RResult.pend,
                comment := "Configuration for '" ++ name ++ "' will change." }
  else
    { ret1 with comment := "'" ++ name ++ "' was configured." }

/-- The permission-application loop of `present` (lines 175 to 189).  On
the first (vhost, perm) entry it calls `set_permissions` unless in test
mode (an error there returns the error `ret`), then initialises
`ret['changes']['perms']` with `new` bound to the string `''` (line 188)
and immediately crashes with `AttributeError` calling `.update` on that
string (line 189).  With no entries it falls through to the final
lines. -/
def perm_apply_loop (b : Backend) (test : Bool) (name : String)
    (perms : List (List (String × Perm))) (ret : Ret) : List BCall × Except PyErr Ret :=
  match perms.flatten with
  | [] => ([], .ok (present_finalize test name ret))
  | (vhost, perm) :: _ =>
    if !test then
      match b.set_permissions vhost name perm.1 perm.2.1 perm.2.2 with
      | .error err =>
        ([.set_permissions vhost name perm.1 perm.2.1 perm.2.2],
          .ok { ret with comment := "Error: " ++ err })
      | .ok _ =>
        ([.set_permissions vhost name perm.1 perm.2.1 perm.2.2],
          .error (.attributeError "update"))
    else
      ([], .error (.attributeError "update"))

/-- Lines 168 to 202 of `present`: list the user's permissions (an error
is fatal), run `_check_perms_changes` with `existing` set, optionally run
the application loop, then finalize. -/
def present_perms (b : Backend) (test : Bool) (name : String)
    (perms : List (List (String × Perm))) (ret : Ret) : List BCall × Except PyErr Ret :=
  match b.list_user_permissions name with
  | .error err =>
    ([.list_user_permissions name], .ok { ret with comment := "Error: " ++ err })
  | .ok existing_perms =>
    let chk := check_perms_changes b name perms (some existing_perms)
    match chk.2 with
    | .error e => (.list_user_permissions name :: chk.1, .error e)
    | .ok need =>
      if need then
        let lp := perm_apply_loop b test name perms ret
        (.list_user_permissions name :: (chk.1 ++ lp.1), lp.2)
      else
        (.list_user_permissions name :: chk.1, .ok (present_finalize test name ret))

/-- Lines 157 to 167 of `present`: compute the tag delta, and if it is
non-empty set the user's tags to the full desired list (apply mode; an
error is fatal and returns `ret` without the tags entry) and record
`changes.tags = (desired, delta)`; then continue with permissions. -/
def present_tags (b : Backend) (test : Bool) (name : String) (tags : Option (List String))
    (perms : List (List (String × Perm))) (ret : Ret) : List BCall × Except PyErr Ret :=
  let ck := check_tags_changes b name tags
  match ck.2 with
  | .error e => (ck.1, .error e)
  | .ok new_tags =>
    if new_tags.isEmpty then
      let next := present_perms b test name perms ret
      (ck.1 ++ next.1, next.2)
    else
      let desired := tags.getD []
      let ret1 := { ret with changes := { ret.changes with tags := some (desired, new_tags) } }
      if !test then
        match b.set_user_tags name desired with
        | .error err =>
          (ck.1 ++ [.set_user_tags name desired], .ok { ret with comment := "Error: " ++ err })
        | .ok _ =>
          let next := present_perms b test name perms ret1
          (ck.1 ++ .set_user_tags name desired :: next.1, next.2)
      else
        let next := present_perms b test name perms ret1
        (ck.1 ++ next.1, next.2)

/-- Embedding of `present` (lines 87 to 202).  Notable source behaviour
kept as-is: the already-present fast path (lines 116 to 119) returns with
`result` still `False`; the creation path in apply mode (line 123)
raises `AttributeError` on the `.foramt` typo before `add_user` is ever
called. -/
def present (b : Backend) (test : Bool) (name : String) (password : Option String)
    (force : Bool) (tags : Option (List String)) (perms : List (List (String × Perm))) :
    List BCall × Except PyErr Ret :=
  let ret : Ret := { name := name, result := RResult.fail, comment := "", changes := Changes.empty }
  match b.user_exists name with
  | .error err => ([.user_exists name], .ok { ret with comment := "Error: " ++ err })
  | .ok user =>
    if user && !(force || !perms.isEmpty || tagsTruthy tags) then
      ([.user_exists name],
        .ok { ret with comment := "User '" ++ name ++ "' is already present." })
    else
      let rest : List BCall × Except PyErr Ret :=
        if !user then
          if !test then
            ([], .error (.attributeError "foramt"))
          else
            present_tags b test name tags perms
              { ret with changes := { ret.changes with user := some ("", name) } }
        else
          if force then
            match password with
            | some pw =>
              if !test then
                match b.change_password name pw with
                | .error err =>
                  ([.change_password name pw], .ok { ret with comment := "Error: " ++ err })
                | .ok _ =>
                  let next := present_tags b test name tags perms
                    { ret with changes :=
                      { ret.changes with password := some ("", "Set password.") } }
                  (.change_password name pw :: next.1, next.2)
              else
                present_tags b test name tags perms
                  { ret with changes :=
                    { ret.changes with password := some ("", "Set password.") } }
            | .none =>
              if !test then
                match b.clear_password name with
                | .error err =>
                  ([.clear_password name], .ok { ret with comment := "Error: " ++ err })
                | .ok _ =>
                  let next := present_tags b test name tags perms
                    { ret with changes :=
                      { ret.changes with password := some ("Removed password.", "") } }
                  (.clear_password name :: next.1, next.2)
              else
                present_tags b test name tags perms
                  { ret with changes :=
                    { ret.changes with password := some ("Removed password.", "") } }
          else
            present_tags b test name tags perms ret
      (.user_exists name :: rest.1, rest.2)

/-- Embedding of `absent` (lines 205 to 245). -/
def absent (b : Backend) (test : Bool) (name : String) : List BCall × Except PyErr Ret :=
  let ret : Ret := { name := name, result := RResult.fail, comment := "", changes := Changes.empty }
  match b.user_exists name with
  | .error err => ([.user_exists name], .ok { ret with comment := "Error: " ++ err })
  | .ok user =>
    if user then
      let retc := { ret with changes := { ret.changes with name := some (name, "") } }
      let fin : Ret :=
        if test then
          { retc with result := RResult.pend,
                      comment := "The user '" ++ name ++ "' will be removed." }
        else
          { retc with result := RResult.succ,
                      comment := "The user '" ++ name ++ "' was removed." }
      if !test then
        match b.delete_user name with
        | .error err =>
          ([.user_exists name, .delete_user name], .ok { ret with comment := "Error: " ++ err })
        | .ok _ => ([.user_exists name, .delete_user name], .ok fin)
      else
        ([.user_exists name], .ok fin)
    else
      ([.user_exists name],
        .ok { ret with result := RResult.succ,
                       comment := "The user '" ++ name ++ "' is not present." })

/-- A backend on which every operation succeeds; the user listing reports
user bob with tags a and b, and bob has no permissions. -/
def bAllOk : Backend where
  user_exists := fun _ => .ok true
  add_user := fun _ _ => .ok ()
  change_password := fun _ _ => .ok ()
  clear_password := fun _ => .ok ()
  list_users := .ok [("bob", ["a", "b"])]
  set_user_tags := fun _ _ => .ok ()
  list_user_permissions := fun _ => .ok []
  set_permissions := fun _ _ _ _ _ => .ok ()
  delete_user := fun _ => .ok ()

/-- Like `bAllOk` but the user does not exist. -/
def bNoUser : Backend := { bAllOk with user_exists := fun _ => .ok false }

/-- Like `bAllOk` but listing users fails with a timeout. -/
def bTagsErr : Backend := { bAllOk with list_users := .error "timeout" }

/-- Like `bAllOk` but changing the password fails. -/
def bPwErr : Backend := { bAllOk with change_password := fun _ _ => .error "boom" }

/-- Like `bAllOk` but listing a user's permissions fails. -/
def bPermErr : Backend :=
  { bAllOk with list_user_permissions := fun _ => .error "denied" }

/-- The result `present bAllOk false "bob" none true none []` returns:
the cleared-password reconfiguration. -/
def c10ret : Ret :=
  { name := "bob", result := RResult.succ, comment := "'bob' was configured.",
    changes := { Changes.empty with password := some ("Removed password.", "") } }

/-- Backend calls that mutate the managed system; the complement is the
read set: `user_exists`, `list_users`, `list_user_permissions`. -/
def isMutator : BCall → Bool
  | .user_exists _ => false
  | .list_users => false
  | .list_user_permissions _ => false
  | _ => true

/-- The call is `rabbitmq.change_password`. -/
def isPwSet : BCall → Bool
  | .change_password _ _ => true
  | _ => false

/-- The call is `rabbitmq.clear_password`. -/
def isPwClear : BCall → Bool
  | .clear_password _ => true
  | _ => false

/-- The call is one of the two credential mutators. -/
def isPwCall (c : BCall) : Bool := isPwSet c || isPwClear c

/-- The credential mutation that the force path performs for this
password argument succeeds on this backend. -/
def pwBackendOk (b : Backend) (name : String) : Option String → Prop
  | some p => b.change_password name p = .ok ()
  | .none => b.clear_password name = .ok ()

/-- The changeset entry that the force path records for this password
argument (lines 142 to 144 and 153 to 155). -/
def pwChangeEntry : Option String → String × String
  | some _ => ("", "Set password.")
  | .none => ("Removed password.", "")

/-- The trace of `_check_tags_changes` is at most the user listing. -/
theorem check_tags_trace (b : Backend) (name : String) (tags : Option (List String)) :
    (check_tags_changes b name tags).1 = [] ∨
    (check_tags_changes b name tags).1 = [.list_users] := by
  unfold check_tags_changes
  split
  · exact Or.inl rfl
  · split
    · exact Or.inl rfl
    · exact Or.inr rfl

/-- The trace of `_check_perms_changes` is at most the permission
listing. -/
theorem check_perms_trace (b : Backend) (name : String)
    (newperms : List (List (String × Perm))) (existing : Option PermMap) :
    (check_perms_changes b name newperms existing).1 = [] ∨
    (check_perms_changes b name newperms existing).1 = [.list_user_permissions name] := by
  unfold check_perms_changes
  split
  · exact Or.inl rfl
  · split
    · exact Or.inr rfl
    · split
      · exact Or.inl rfl
      · exact Or.inl rfl

/-- Every call in the permission-application loop trace satisfies any
predicate that accepts `set_permissions` calls in apply mode. -/
theorem perm_apply_loop_all (b : Backend) (test : Bool) (name : String)
    (perms : List (List (String × Perm))) (ret : Ret) (p : BCall → Bool)
    (h4 : ∀ v x y z, test = false → p (.set_permissions v name x y z) = true) :
    ((perm_apply_loop b test name perms ret).1.all p) = true := by
  unfold perm_apply_loop
  split
  · rfl
  · split
    · rename_i ht
      have htf : test = false := by
        cases test
        · rfl
        · simp at ht
      split
      · simp [h4 _ _ _ _ htf]
      · simp [h4 _ _ _ _ htf]
    · rfl

/-- Every call in the `present_perms` trace satisfies any predicate that
accepts the permission listing and, in apply mode, `set_permissions`. -/
theorem present_perms_all (b : Backend) (test : Bool) (name : String)
    (perms : List (List (String × Perm))) (ret : Ret) (p : BCall → Bool)
    (h2 : p (.list_user_permissions name) = true)
    (h4 : ∀ v x y z, test = false → p (.set_permissions v name x y z) = true) :
    ((present_perms b test name perms ret).1.all p) = true := by
  have hchk : ((check_perms_changes b name perms
      (some ((b.list_user_permissions name).toOption.getD []))).1.all p) = true := by
    rcases check_perms_trace b name perms
        (some ((b.list_user_permissions name).toOption.getD [])) with h | h <;>
      simp [h, h2]
  unfold present_perms
  split
  · simp [h2]
  · rename_i ep hep
    have hchk2 : ((check_perms_changes b name perms (some ep)).1.all p) = true := by
      rcases check_perms_trace b name perms (some ep) with h | h <;> simp [h, h2]
    dsimp only
    split
    · simp [h2, List.all_eq_true] at hchk2 ⊢
      exact hchk2
    · split
      · simp [h2, List.all_append, hchk2,
          perm_apply_loop_all b test name perms ret p h4]
      · simp [h2, List.all_eq_true] at hchk2 ⊢
        exact hchk2

/-- Every call in the `present_tags` trace satisfies any predicate that
accepts the two listings and, in apply mode, `set_user_tags` and
`set_permissions`. -/
theorem present_tags_all (b : Backend) (test : Bool) (name : String)
    (tags : Option (List String)) (perms : List (List (String × Perm))) (ret : Ret)
    (p : BCall → Bool)
    (h1 : p .list_users = true)
    (h2 : p (.list_user_permissions name) = true)
    (h3 : ∀ ts2, test = false → p (.set_user_tags name ts2) = true)
    (h4 : ∀ v x y z, test = false → p (.set_permissions v name x y z) = true) :
    ((present_tags b test name tags perms ret).1.all p) = true := by
  have hck : ((check_tags_changes b name tags).1.all p) = true := by
    rcases check_tags_trace b name tags with h | h <;> simp [h, h1]
  rcases hc2 : (check_tags_changes b name tags).2 with e | new_tags
  · simp [present_tags, hc2, hck]
  · by_cases hni : new_tags.isEmpty = true
    · simp [present_tags, hc2, hni, List.all_append, hck,
        present_perms_all b test name perms ret p h2 h4]
    · cases test with
      | true =>
        simp [present_tags, hc2, hni, List.all_append, hck,
          present_perms_all b true name perms _ p h2 h4]
      | false =>
        rcases hst : b.set_user_tags name (tags.getD []) with err | u
        · simp [present_tags, hc2, hni, hst, List.all_append, hck, h3 _ rfl]
        · simp [present_tags, hc2, hni, hst, List.all_append, hck, h3 _ rfl,
            present_perms_all b false name perms _ p h2 h4]

/-- Every call in the `present` trace satisfies any predicate that
accepts the three reads and, in apply mode, the mutators `present` can
reach (`change_password`, `clear_password`, `set_user_tags`,
`set_permissions`; `add_user` is unreachable because of the line 123
typo). -/
theorem present_all (b : Backend) (test : Bool) (name : String) (password : Option String)
    (force : Bool) (tags : Option (List String)) (perms : List (List (String × Perm)))
    (p : BCall → Bool)
    (h0 : p (.user_exists name) = true)
    (h1 : p .list_users = true)
    (h2 : p (.list_user_permissions name) = true)
    (h3 : ∀ ts2, test = false → p (.set_user_tags name ts2) = true)
    (h4 : ∀ v x y z, test = false → p (.set_permissions v name x y z) = true)
    (h5 : ∀ pw, test = false → p (.change_password name pw) = true)
    (h6 : test = false → p (.clear_password name) = true) :
    ((present b test name password force tags perms).1.all p) = true := by
  have htags : ∀ r, ((present_tags b test name tags perms r).1.all p) = true :=
    fun r => present_tags_all b test name tags perms r p h1 h2 h3 h4
  rcases hue : b.user_exists name with err | user
  · simp [present, hue, h0]
  · cases user with
    | false =>
      cases test with
      | true => simp [present, hue, h0, htags]
      | false => simp [present, hue, h0]
    | true =>
      by_cases hg : (force || !perms.isEmpty || tagsTruthy tags) = true
      · cases force with
        | false =>
          simp only [Bool.or_eq_true] at hg
          rcases hg with (hg | hg) | hg
          · simp at hg
          · simp [present, hue, hg, h0, htags]
          · simp [present, hue, hg, h0, htags]
        | true =>
          cases password with
          | some pw =>
            cases test with
            | true => simp [present, hue, h0, htags]
            | false =>
              rcases hcp : b.change_password name pw with err | u
              · simp [present, hue, hcp, h0, h5 _ rfl]
              · simp [present, hue, hcp, h0, h5 _ rfl, htags]
          | none =>
            cases test with
            | true => simp [present, hue, h0, htags]
            | false =>
              rcases hcp : b.clear_password name with err | u
              · simp [present, hue, hcp, h0, h6 rfl]
              · simp [present, hue, hcp, h0, h6 rfl, htags]
      · simp only [Bool.or_eq_true, not_or] at hg
        simp [present, hue, h0, Bool.eq_false_iff.mpr hg.1.1,
          Bool.eq_false_iff.mpr hg.1.2, Bool.eq_false_iff.mpr hg.2]

/-- Every call in the `absent` trace satisfies any predicate that accepts
the existence read and, in apply mode, `delete_user`. -/
theorem absent_all (b : Backend) (test : Bool) (name : String) (p : BCall → Bool)
    (h0 : p (.user_exists name) = true)
    (h7 : test = false → p (.delete_user name) = true) :
    ((absent b test name).1.all p) = true := by
  unfold absent
  split
  · simp [h0]
  · split
    · dsimp only
      split
      · rename_i ht
        have htf : test = false := by
          cases test
          · rfl
          · simp at ht
        split
        · simp [h0, h7 htf]
        · simp [h0, h7 htf]
      · simp [h0]
    · simp [h0]

/-- A sub-predicate of a predicate absent from a list is counted zero
times. -/
theorem countP_zero_of_all {l : List BCall} {p q : BCall → Bool}
    (hle : ∀ c, p c = true → q c = true) (h : (l.all fun c => !q c) = true) :
    l.countP p = 0 := by
  rw [List.countP_eq_zero]
  intro a ha hpa
  have hq := hle a hpa
  have := List.all_eq_true.mp h a ha
  simp [hq] at this

/-- `present_finalize` (lines 191 to 202) only sets `result` and
`comment`; the recorded changes pass through untouched. -/
theorem present_finalize_changes (test : Bool) (name : String) (ret : Ret) :
    (present_finalize test name ret).changes = ret.changes := by
  cases test <;> by_cases he : emptyChanges ret.changes = true <;>
    simp [present_finalize, he]

/-- Any `ret` returned (rather than raised) by the permission
application loop carries exactly the changes it was given: the loop
crashes before it can record a perms entry. -/
theorem perm_apply_loop_ok_changes (b : Backend) (test : Bool) (name : String)
    (perms : List (List (String × Perm))) (ret : Ret) :
    ∀ r, (perm_apply_loop b test name perms ret).2 = .ok r → r.changes = ret.changes := by
  intro r h
  unfold perm_apply_loop at h
  split at h
  · cases h
    exact present_finalize_changes test name ret
  · split at h
    · split at h
      · cases h
        rfl
      · simp at h
    · simp at h

/-- Any `ret` returned by the permission stage carries exactly the
changes it was given. -/
theorem present_perms_ok_changes (b : Backend) (test : Bool) (name : String)
    (perms : List (List (String × Perm))) (ret : Ret) :
    ∀ r, (present_perms b test name perms ret).2 = .ok r → r.changes = ret.changes := by
  intro r h
  rcases hl : b.list_user_permissions name with err | ep
  · simp [present_perms, hl] at h
    rw [← h]
  · rcases hc : (check_perms_changes b name perms (some ep)).2 with e | need
    · simp [present_perms, hl, hc] at h
    · cases need with
      | false =>
        simp [present_perms, hl, hc] at h
        rw [← h]
        exact present_finalize_changes test name ret
      | true =>
        simp [present_perms, hl, hc] at h
        exact perm_apply_loop_ok_changes b test name perms ret r h

/-- Any `ret` returned by the tag stage has the same password changeset
entry it was given: the stage only ever adds a tags entry. -/
theorem present_tags_ok_pw (b : Backend) (test : Bool) (name : String)
    (tags : Option (List String)) (perms : List (List (String × Perm))) (ret : Ret) :
    ∀ r, (present_tags b test name tags perms ret).2 = .ok r →
      r.changes.password = ret.changes.password := by
  intro r h
  rcases hc2 : (check_tags_changes b name tags).2 with e | new_tags
  · simp [present_tags, hc2] at h
  · by_cases hni : new_tags.isEmpty = true
    · simp [present_tags, hc2, hni] at h
      rw [present_perms_ok_changes b test name perms ret r h]
    · cases test with
      | true =>
        simp [present_tags, hc2, hni] at h
        rw [present_perms_ok_changes b true name perms _ r h]
      | false =>
        rcases hst : b.set_user_tags name (tags.getD []) with err | u
        · simp [present_tags, hc2, hni, hst] at h
          rw [← h]
        · simp [present_tags, hc2, hni, hst] at h
          rw [present_perms_ok_changes b false name perms _ r h]

/-- In force mode with an existing user, `present` either proceeds into
the tag stage carrying the recorded password changeset entry, or (apply
mode with the credential mutation failing) returns immediately with a
failure result and empty changes. -/
theorem present_force_cases (b : Backend) (test : Bool) (name : String)
    (password : Option String) (tags : Option (List String))
    (perms : List (List (String × Perm)))
    (hex : b.user_exists name = .ok true) :
    (present b test name password true tags perms).2 =
      (present_tags b test name tags perms
        { name := name, result := .fail, comment := "",
          changes := { Changes.empty with password := some (pwChangeEntry password) } }).2 ∨
    (test = false ∧ ¬ pwBackendOk b name password ∧
      ∃ msg, (present b test name password true tags perms).2 =
        .ok { name := name, result := .fail, comment := msg, changes := Changes.empty }) := by
  cases password with
  | some pw =>
    cases test with
    | true => exact Or.inl (by simp [present, hex, pwChangeEntry, Changes.empty])
    | false =>
      rcases hcp : b.change_password name pw with err | u
      · refine Or.inr ⟨rfl, ?_, ⟨"Error: " ++ err, by simp [present, hex, hcp]⟩⟩
        intro hok
        have hok2 : b.change_password name pw = Except.ok () := hok
        rw [hcp] at hok2
        exact Except.noConfusion hok2
      · exact Or.inl (by simp [present, hex, hcp, pwChangeEntry, Changes.empty])
  | none =>
    cases test with
    | true => exact Or.inl (by simp [present, hex, pwChangeEntry, Changes.empty])
    | false =>
      rcases hcp : b.clear_password name with err | u
      · refine Or.inr ⟨rfl, ?_, ⟨"Error: " ++ err, by simp [present, hex, hcp]⟩⟩
        intro hok
        have hok2 : b.clear_password name = Except.ok () := hok
        rw [hcp] at hok2
        exact Except.noConfusion hok2
      · exact Or.inl (by simp [present, hex, hcp, pwChangeEntry, Changes.empty])

/-- Claim C1 (refuted by the code, a code bug): in apply mode with an
absent resource the source never reaches `rabbitmq.add_user`: line 123
evaluates `'...'.foramt(name)` (a typo for `format`), raising
`AttributeError` right after the existence query, so no create call is
made and no result is returned.  The trace is exactly the existence
query. -/
theorem c1_create_blocked_by_typo (b : Backend) (name : String) (password : Option String)
    (force : Bool) (tags : Option (List String)) (perms : List (List (String × Perm)))
    (hex : b.user_exists name = .ok false) :
    present b false name password force tags perms =
      ([.user_exists name], .error (.attributeError "foramt")) := by
  simp [present, hex]

/-- Witness for `c1_create_blocked_by_typo` at a concrete backend. -/
theorem c1_witness :
    bNoUser.user_exists "bob" = .ok false ∧
    present bNoUser false "bob" (some "p") false .none [] =
      ([.user_exists "bob"], .error (.attributeError "foramt")) :=
  ⟨rfl, c1_create_blocked_by_typo bNoUser "bob" (some "p") false .none [] rfl⟩

/-- Claim C2 (refuted by the code, a code bug): `present` is not total.
With an existing user and a non-empty `perms` argument,
`_check_perms_changes` is called with `existing` set (line 174), its
local `existing_perms` is never assigned (lines 51 to 56 only assign it
when `existing is None`), and line 61 raises `NameError`, which escapes
`present`. -/
theorem c2_reconciler_crashes :
    present bAllOk false "bob" (some "p") false .none [[("/", ("a", "b", "c"))]] =
      ([.user_exists "bob", .list_user_permissions "bob"],
        .error (.nameError "existing_perms")) := by
  decide

/-- Claim C3 (refuted by the code, a code bug): the already-present fast
path (lines 116 to 119) returns the expected comment and empty changes,
but `ret['result']` is still the initial `False` (failure), never set to
`True`, so the short-circuit reports failure instead of success. -/
theorem c3_already_present_failure (b : Backend) (test : Bool) (name : String)
    (password : Option String) (hex : b.user_exists name = .ok true) :
    present b test name password false .none [] =
      ([.user_exists name],
        .ok { name := name, result := .fail,
              comment := "User '" ++ name ++ "' is already present.",
              changes := Changes.empty }) := by
  simp [present, hex, tagsTruthy]

/-- Witness for `c3_already_present_failure` at a concrete backend. -/
theorem c3_witness :
    bAllOk.user_exists "bob" = .ok true ∧
    present bAllOk false "bob" .none false .none [] =
      ([.user_exists "bob"],
        .ok { name := "bob", result := .fail,
              comment := "User 'bob' is already present.",
              changes := Changes.empty }) :=
  ⟨rfl, c3_already_present_failure bAllOk false "bob" .none rfl⟩

/-- Claim C4 counterexample: with desired tags T = [a] and observed tags
O = [a, b], T minus O is empty, so the claim predicts no tag delta and
that b is kept; but the code computes the delta as O minus T = [b]
(line 78), triggers `set_user_tags` with the full desired list [a]
(line 161), replacing the tag set and thereby dropping b, and records
the [b] delta in the changeset. -/
theorem c4_tag_delta_cex :
    (present bAllOk false "bob" .none false (some ["a"]) []).1.contains
        (.set_user_tags "bob" ["a"]) = true ∧
    (present bAllOk false "bob" .none false (some ["a"]) []).2 =
      .ok { name := "bob", result := .succ, comment := "'bob' was configured.",
            changes := { Changes.empty with tags := some (["a"], ["b"]) } } ∧
    ["a"].filter (fun t => !(["a", "b"].contains t)) = [] := by
  decide

/-- Claim C5 (refuted by the code, a code bug): no `set_permissions` call
ever happens for a non-empty desired permission set.  `present` passes
the freshly listed permissions as `existing` to `_check_perms_changes`
(line 174), whose local `existing_perms` is then unbound, so line 61
raises `NameError` before the application loop (lines 175 to 189) can
run; the trace stops at the permission listing. -/
theorem c5_perms_blocked_by_nameerror (b : Backend) (test : Bool) (name : String)
    (password : Option String) (ep : PermMap) (perms : List (List (String × Perm)))
    (hex : b.user_exists name = .ok true)
    (hlp : b.list_user_permissions name = .ok ep)
    (hne : perms.any (fun d => !d.isEmpty) = true) :
    present b test name password false .none perms =
      ([.user_exists name, .list_user_permissions name],
        .error (.nameError "existing_perms")) := by
  have hpe : perms.isEmpty = false := by
    cases perms with
    | nil => simp at hne
    | cons a l => rfl
  simp [present, hex, tagsTruthy, present_tags, check_tags_changes, present_perms, hlp,
        check_perms_changes, hpe, hne]

/-- Witness for `c5_perms_blocked_by_nameerror` at a concrete backend. -/
theorem c5_witness :
    bAllOk.user_exists "bob" = .ok true ∧
    present bAllOk true "bob" .none false .none [[("/", ("x", "y", "z"))]] =
      ([.user_exists "bob", .list_user_permissions "bob"],
        .error (.nameError "existing_perms")) :=
  ⟨rfl, c5_perms_blocked_by_nameerror bAllOk true "bob" .none [] [[("/", ("x", "y", "z"))]]
    rfl rfl rfl⟩

/-- Claim C6 counterexample: a backend failure of the tag-listing read
(`rabbitmq.list_users` raising with message timeout) does not terminate
the call with a failure result.  `_check_tags_changes` catches it,
logs, and returns the empty delta (lines 79 to 81), so the call
proceeds, lists permissions, and ends with success and the
already-in-desired-state comment instead of a failure carrying the
message. -/
theorem c6_swallowed_read_cex :
    present bTagsErr false "bob" .none false (some ["t"]) [] =
      ([.user_exists "bob", .list_users, .list_user_permissions "bob"],
        .ok { name := "bob", result := .succ,
              comment := "'bob' is already in the desired state.",
              changes := Changes.empty }) := by
  decide

/-- Claim C8 (confirmed): dry-run `absent` on an existing resource never
calls `delete_user` (the trace is only the existence query), returns the
pending result `None`, the will-be-removed comment, and the
name old/new changeset entry. -/
theorem c8_absent_dryrun (b : Backend) (name : String) (hex : b.user_exists name = .ok true) :
    absent b true name =
      ([.user_exists name],
        .ok { name := name, result := .pend,
              comment := "The user '" ++ name ++ "' will be removed.",
              changes := { Changes.empty with name := some (name, "") } }) := by
  simp [absent, hex]

/-- Witness for `c8_absent_dryrun` at a concrete backend. -/
theorem c8_witness :
    bAllOk.user_exists "bob" = .ok true ∧
    absent bAllOk true "bob" =
      ([.user_exists "bob"],
        .ok { name := "bob", result := .pend,
              comment := "The user 'bob' will be removed.",
              changes := { Changes.empty with name := some ("bob", "") } }) :=
  ⟨rfl, c8_absent_dryrun bAllOk "bob" rfl⟩

/-- Claim C10 counterexample: with an existing user, `force=true`, a
supplied password and apply mode, a failing `change_password` backend
call returns a failure result whose `changes` dictionary is empty: the
password entry is only recorded after the backend call succeeds
(lines 137 to 144), so it is not unconditionally recorded. -/
theorem c10_force_changes_cex :
    present bPwErr false "bob" (some "p") true .none [] =
      ([.user_exists "bob", .change_password "bob" "p"],
        .ok { name := "bob", result := .fail, comment := "Error: boom",
              changes := Changes.empty }) := by
  decide

/-- Claim C4 as amended: for an existing user with non-empty desired
tags T, the code computes the tag delta as the observed tags minus T
(line 78, the reverse of the claimed T minus observed); if that delta is
empty no tag operation happens, and if it is non-empty `set_user_tags`
is invoked once with the full desired list (line 161) — replacing the
tag set, so the observed-only tags are removed exactly when the delta
triggers — and `changes.tags` records (desired, delta). -/
theorem c4_tag_delta_amended (b : Backend) (name : String) (ts observed : List String)
    (users : List (String × List String)) (ep : PermMap)
    (hex : b.user_exists name = .ok true)
    (hlu : b.list_users = .ok users)
    (hfind : lookupA users name = some observed)
    (hts : ts.isEmpty = false)
    (hst : b.set_user_tags name ts = .ok ())
    (hlp : b.list_user_permissions name = .ok ep) :
    (observed.filter (fun t => !ts.contains t) = [] →
      present b false name .none false (some ts) [] =
        ([.user_exists name, .list_users, .list_user_permissions name],
          .ok { name := name, result := .succ,
                comment := "'" ++ name ++ "' is already in the desired state.",
                changes := Changes.empty })) ∧
    (observed.filter (fun t => !ts.contains t) ≠ [] →
      present b false name .none false (some ts) [] =
        ([.user_exists name, .list_users, .set_user_tags name ts,
          .list_user_permissions name],
          .ok { name := name, result := .succ,
                comment := "'" ++ name ++ "' was configured.",
                changes := { Changes.empty with
                  tags := some (ts, observed.filter (fun t => !ts.contains t)) } })) := by
  constructor
  · intro h
    have hforall : ∀ a ∈ observed, a ∈ ts := by
      rw [List.filter_eq_nil_iff] at h
      intro a ha
      have := h a ha
      simpa using this
    simp [present, hex, tagsTruthy, hts, present_tags, check_tags_changes, hlu, hfind, h,
      eq_true hforall, present_perms, hlp, check_perms_changes, present_finalize,
      emptyChanges, Changes.empty]
  · intro h
    have hnall : ¬ ∀ a ∈ observed, a ∈ ts := by
      intro hall
      apply h
      rw [List.filter_eq_nil_iff]
      intro a ha
      simpa using hall a ha
    have hni : (observed.filter (fun t => !ts.contains t)).isEmpty = false := by
      rcases hd : observed.filter (fun t => !ts.contains t) with _ | ⟨x, xs⟩
      · exact absurd hd h
      · rfl
    simp [present, hex, tagsTruthy, hts, present_tags, check_tags_changes, hlu, hfind, hni,
      eq_false hnall, hst, present_perms, hlp, check_perms_changes, present_finalize,
      emptyChanges, Changes.empty]

/-- Witness for `c4_tag_delta_amended` at a concrete backend where the
user has tags a and b and the desired set is only a. -/
theorem c4_witness :
    present bAllOk false "bob" .none false (some ["a"]) [] =
      ([.user_exists "bob", .list_users, .set_user_tags "bob" ["a"],
        .list_user_permissions "bob"],
        .ok { name := "bob", result := .succ, comment := "'bob' was configured.",
              changes := { Changes.empty with tags := some (["a"], ["b"]) } }) :=
  (c4_tag_delta_amended bAllOk "bob" ["a"] ["a", "b"] [("bob", ["a", "b"])] []
    rfl rfl rfl rfl rfl rfl).2 (by decide)

/-- Claim C6 as amended: every failing backend operation at a reachable
call site terminates the call immediately (no further backend calls)
with result failure and the backend error message in the comment — the
existence query in both entry points, the credential set and clear, the
tag-set mutation, the permission listing of line 168 and the deletion —
with the single exception of the tag-listing read inside the tag-delta
check, whose error is caught and logged (lines 79 to 81) and treated as
an empty tag delta, the call continuing and possibly ending in success.
(The `add_user` and `set_permissions` sites cannot fail because the
line 123 and line 61 crashes precede them.) -/
theorem c6_backend_failure_semantics (b : Backend) (test : Bool) (name : String) :
    (∀ msg password force tags perms, b.user_exists name = .error msg →
      present b test name password force tags perms =
        ([.user_exists name],
          .ok { name := name, result := .fail, comment := "Error: " ++ msg,
                changes := Changes.empty })) ∧
    (∀ msg p tags perms, b.user_exists name = .ok true →
      b.change_password name p = .error msg →
      present b false name (some p) true tags perms =
        ([.user_exists name, .change_password name p],
          .ok { name := name, result := .fail, comment := "Error: " ++ msg,
                changes := Changes.empty })) ∧
    (∀ msg tags perms, b.user_exists name = .ok true →
      b.clear_password name = .error msg →
      present b false name .none true tags perms =
        ([.user_exists name, .clear_password name],
          .ok { name := name, result := .fail, comment := "Error: " ++ msg,
                changes := Changes.empty })) ∧
    (∀ msg ts users observed perms, b.user_exists name = .ok true →
      b.list_users = .ok users → lookupA users name = some observed →
      ts.isEmpty = false → observed.filter (fun t => !ts.contains t) ≠ [] →
      b.set_user_tags name ts = .error msg →
      present b false name .none false (some ts) perms =
        ([.user_exists name, .list_users, .set_user_tags name ts],
          .ok { name := name, result := .fail, comment := "Error: " ++ msg,
                changes := Changes.empty })) ∧
    (∀ msg password perms, b.user_exists name = .ok true →
      b.list_user_permissions name = .error msg → perms.isEmpty = false →
      present b test name password false .none perms =
        ([.user_exists name, .list_user_permissions name],
          .ok { name := name, result := .fail, comment := "Error: " ++ msg,
                changes := Changes.empty })) ∧
    (∀ msg, b.user_exists name = .error msg →
      absent b test name =
        ([.user_exists name],
          .ok { name := name, result := .fail, comment := "Error: " ++ msg,
                changes := Changes.empty })) ∧
    (∀ msg, b.user_exists name = .ok true → b.delete_user name = .error msg →
      absent b false name =
        ([.user_exists name, .delete_user name],
          .ok { name := name, result := .fail, comment := "Error: " ++ msg,
                changes := Changes.empty })) ∧
    (∀ m ts ep, b.user_exists name = .ok true → b.list_users = .error m →
      ts.isEmpty = false → b.list_user_permissions name = .ok ep →
      present b test name .none false (some ts) [] =
        ([.user_exists name, .list_users, .list_user_permissions name],
          .ok { name := name, result := .succ,
                comment := "'" ++ name ++ "' is already in the desired state.",
                changes := Changes.empty })) := by
  refine ⟨?_, ?_, ?_, ?_, ?_, ?_, ?_, ?_⟩
  · intro msg password force tags perms h
    simp [present, h]
  · intro msg p tags perms hex hcp
    simp [present, hex, hcp]
  · intro msg tags perms hex hcp
    simp [present, hex, hcp]
  · intro msg ts users observed perms hex hlu hfind hts hdelta hst
    have hni : (observed.filter (fun t => !ts.contains t)).isEmpty = false := by
      rcases hd : observed.filter (fun t => !ts.contains t) with _ | ⟨x, xs⟩
      · exact absurd hd hdelta
      · rfl
    have hnall : ¬ ∀ a ∈ observed, a ∈ ts := by
      intro hall
      apply hdelta
      rw [List.filter_eq_nil_iff]
      intro a ha
      simpa using hall a ha
    simp [present, hex, tagsTruthy, hts, present_tags, check_tags_changes, hlu, hfind,
      hni, eq_false hnall, hst]
  · intro msg password perms hex hlp hpe
    simp [present, hex, hpe, tagsTruthy, present_tags, check_tags_changes,
      present_perms, hlp]
  · intro msg h
    simp [absent, h]
  · intro msg hex hdel
    simp [absent, hex, hdel]
  · intro m ts ep hex hlu hts hlp
    simp [present, hex, tagsTruthy, hts, present_tags, check_tags_changes, hlu,
      present_perms, hlp, check_perms_changes, present_finalize, emptyChanges,
      Changes.empty]

/-- Witness for `c6_backend_failure_semantics` at concrete backends: the
fatal permission-listing failure, and the swallowed tag-listing failure
with the call continuing to success. -/
theorem c6_witness :
    present bPermErr false "bob" (some "p") false .none [[("/", ("x", "y", "z"))]] =
      ([.user_exists "bob", .list_user_permissions "bob"],
        .ok { name := "bob", result := .fail, comment := "Error: denied",
              changes := Changes.empty }) ∧
    present bTagsErr true "bob" .none false (some ["t"]) [] =
      ([.user_exists "bob", .list_users, .list_user_permissions "bob"],
        .ok { name := "bob", result := .succ,
              comment := "'bob' is already in the desired state.",
              changes := Changes.empty }) :=
  ⟨(c6_backend_failure_semantics bPermErr false "bob").2.2.2.2.1 "denied" (some "p")
      [[("/", ("x", "y", "z"))]] rfl rfl rfl,
    (c6_backend_failure_semantics bTagsErr true "bob").2.2.2.2.2.2.2 "timeout" ["t"] []
      rfl rfl rfl rfl⟩

/-- Claim C7 (confirmed): in test (dry-run) mode neither `present` nor
`absent` ever performs a mutating backend call — every call in either
trace is one of the reads `user_exists`, `list_users`,
`list_user_permissions`. -/
theorem c7_dryrun_readonly (b : Backend) (name : String) (password : Option String)
    (force : Bool) (tags : Option (List String)) (perms : List (List (String × Perm))) :
    ((present b true name password force tags perms).1.all fun c => !isMutator c) = true ∧
    ((absent b true name).1.all fun c => !isMutator c) = true := by
  constructor
  · exact present_all b true name password force tags perms _ rfl rfl rfl
      (fun _ ht => Bool.noConfusion ht) (fun _ _ _ _ ht => Bool.noConfusion ht)
      (fun _ ht => Bool.noConfusion ht) (fun ht => Bool.noConfusion ht)
  · exact absent_all b true name _ rfl (fun ht => Bool.noConfusion ht)

/-- Claim C9 (confirmed): in apply mode with an existing user and
`force=true`, a supplied password leads to exactly one `change_password`
call and no `clear_password` call, and a `None` password to exactly one
`clear_password` call and no `change_password` call, whatever the tags
and perms arguments are; with no further desired attributes the call
succeeds with the corresponding password changeset entry
(`{old:'Removed password.', new:''}` for the clear case). -/
theorem c9_force_password (b : Backend) (name pw : String) (ep : PermMap)
    (hex : b.user_exists name = .ok true)
    (hch : b.change_password name pw = .ok ())
    (hcl : b.clear_password name = .ok ())
    (hlp : b.list_user_permissions name = .ok ep) :
    (present b false name (some pw) true .none [] =
      ([.user_exists name, .change_password name pw, .list_user_permissions name],
        .ok { name := name, result := .succ,
              comment := "'" ++ name ++ "' was configured.",
              changes := { Changes.empty with password := some ("", "Set password.") } })) ∧
    (present b false name .none true .none [] =
      ([.user_exists name, .clear_password name, .list_user_permissions name],
        .ok { name := name, result := .succ,
              comment := "'" ++ name ++ "' was configured.",
              changes :=
                { Changes.empty with password := some ("Removed password.", "") } })) ∧
    (∀ tags perms,
      ((present b false name (some pw) true tags perms).1.countP isPwSet = 1 ∧
       (present b false name (some pw) true tags perms).1.countP isPwClear = 0)) ∧
    (∀ tags perms,
      ((present b false name .none true tags perms).1.countP isPwSet = 0 ∧
       (present b false name .none true tags perms).1.countP isPwClear = 1)) := by
  have hset0 : ∀ tags perms ret2,
      ((present_tags b false name tags perms ret2).1.countP isPwSet = 0 ∧
       (present_tags b false name tags perms ret2).1.countP isPwClear = 0) := by
    intro tags perms ret2
    have hall := present_tags_all b false name tags perms ret2 (fun c => !isPwCall c)
      rfl rfl (fun _ _ => rfl) (fun _ _ _ _ _ => rfl)
    exact ⟨countP_zero_of_all (fun c hc => by simp [isPwCall, hc]) hall,
      countP_zero_of_all (fun c hc => by simp [isPwCall, hc]) hall⟩
  refine ⟨?_, ?_, ?_, ?_⟩
  · simp [present, hex, hch, hlp, present_tags, check_tags_changes, present_perms,
      check_perms_changes, present_finalize, emptyChanges, tagsTruthy, Changes.empty]
  · simp [present, hex, hcl, hlp, present_tags, check_tags_changes, present_perms,
      check_perms_changes, present_finalize, emptyChanges, tagsTruthy, Changes.empty]
  · intro tags perms
    constructor
    · simp [present, hex, hch, List.countP_cons, (hset0 tags perms _).1,
        show isPwSet (.user_exists name) = false from rfl,
        show isPwSet (.change_password name pw) = true from rfl]
    · simp [present, hex, hch, List.countP_cons, (hset0 tags perms _).2,
        show isPwClear (.user_exists name) = false from rfl,
        show isPwClear (.change_password name pw) = false from rfl]
  · intro tags perms
    constructor
    · simp [present, hex, hcl, List.countP_cons, (hset0 tags perms _).1,
        show isPwSet (.user_exists name) = false from rfl,
        show isPwSet (.clear_password name) = false from rfl]
    · simp [present, hex, hcl, List.countP_cons, (hset0 tags perms _).2,
        show isPwClear (.user_exists name) = false from rfl,
        show isPwClear (.clear_password name) = true from rfl]

/-- Witness for `c9_force_password` at a concrete backend (the clear
case of Scenario B). -/
theorem c9_witness :
    present bAllOk false "bob" .none true .none [] =
      ([.user_exists "bob", .clear_password "bob", .list_user_permissions "bob"],
        .ok { name := "bob", result := .succ,
              comment := "'bob' was configured.",
              changes :=
                { Changes.empty with password := some ("Removed password.", "") } }) :=
  (c9_force_password bAllOk "bob" "p" [] rfl rfl rfl rfl).2.1

/-- Claim C10 as amended: with an existing user and `force=true`, every
`ret` that `present` actually returns carries the password changeset
entry whenever the credential mutation did not fail (always in dry-run,
and in apply mode whenever the backend call succeeds), and in no case is
the returned value the success-with-empty-changes no-op (the
already-in-desired-state outcome); when the credential mutation fails in
apply mode the call returns failure with empty changes and no password
entry. -/
theorem c10_force_never_noop (b : Backend) (test : Bool) (name : String)
    (password : Option String) (tags : Option (List String))
    (perms : List (List (String × Perm)))
    (hex : b.user_exists name = .ok true) :
    ∀ r, (present b test name password true tags perms).2 = .ok r →
      ¬(r.result = .succ ∧ emptyChanges r.changes = true) ∧
      ((test = true ∨ pwBackendOk b name password) →
        r.changes.password = some (pwChangeEntry password)) := by
  intro r h
  rcases present_force_cases b test name password tags perms hex with hc | ⟨htf, hnok, msg, heq⟩
  · rw [hc] at h
    have hpw2 : r.changes.password = some (pwChangeEntry password) :=
      present_tags_ok_pw b test name tags perms _ r h
    constructor
    · rintro ⟨hs, he⟩
      simp only [emptyChanges, Bool.and_eq_true] at he
      have hp : r.changes.password.isNone = true := he.1.1.1.2
      rw [hpw2] at hp
      simp at hp
    · intro _
      exact hpw2
  · rw [heq] at h
    have h2 : ({ name := name, result := RResult.fail, comment := msg,
                 changes := Changes.empty } : Ret) = r := Except.ok.inj h
    constructor
    · rintro ⟨hs, _⟩
      rw [← h2] at hs
      exact RResult.noConfusion hs
    · rintro (ht | hok)
      · exact Bool.noConfusion (htf.symm.trans ht)
      · exact absurd hok hnok

/-- Witness for `c10_force_never_noop` at a concrete backend with a
successfully cleared password. -/
theorem c10_witness :
    ¬(c10ret.result = .succ ∧ emptyChanges c10ret.changes = true) ∧
    c10ret.changes.password = some (pwChangeEntry .none) :=
  have h := c10_force_never_noop bAllOk false "bob" .none .none [] rfl c10ret (by decide)
  ⟨h.1, h.2 (Or.inr rfl)⟩

end RabbitmqUser
